import Mathlib

/-!
Verification of the transparent-gateway failover engine against its
natural-language specification.

Shallow embedding of the repository sources:
* `src/transparent_gateway/proxy.py` — header filtering, token rewrite,
  auth check, body inspection, and the two request pipelines;
* `src/transparent_gateway/circuit_breaker.py` — per-provider breaker and
  the breaker manager;
* `src/transparent_gateway/config.py` — the `Provider` / `Config`
  dataclasses, used to settle the attribute-access behaviour of
  `proxy.get_breaker_manager`.

Python strings are modelled as Lean `String` (header values are compared
and rewritten with Python's substring semantics, reproduced below), byte
strings as `List Nat` (one entry per byte).  Wall-clock time is modelled
as `ℤ`: the verified properties quantify over arbitrary instants and
durations and depend only on the ordered-group structure of time, not on
sub-unit granularity.
-/

namespace TransparentGateway

/-! ## Python string primitives

`pyContains s sub` is Python's `sub in s` (substring containment; the
empty string is contained in everything).  `pyReplace s old new` is
Python's `s.replace(old, new)`: leftmost non-overlapping replacement of
every occurrence; when `old` is empty, `new` is inserted before every
character and once at the end (`"ab".replace("", "p") == "papbp"`). -/

def pyContainsL (sub : List Char) : List Char → Bool
  | [] => sub.isEmpty
  | c :: rest => sub.isPrefixOf (c :: rest) || pyContainsL sub rest

def pyContains (s sub : String) : Bool :=
  pyContainsL sub.data s.data

def pyReplaceGo (old new : List Char) : Nat → List Char → List Char
  | 0, _ => []
  | _ + 1, [] => if old.isEmpty then new else []
  | fuel + 1, c :: rest =>
    if old.isEmpty then
      new ++ c :: pyReplaceGo old new fuel rest
    else if old.isPrefixOf (c :: rest) then
      new ++ pyReplaceGo old new fuel ((c :: rest).drop old.length)
    else
      c :: pyReplaceGo old new fuel rest

def pyReplaceL (s old new : List Char) : List Char :=
  pyReplaceGo old new (s.length + 1) s

def pyReplace (s old new : String) : String :=
  ⟨pyReplaceL s.data old.data new.data⟩

/-! ## Header helpers (proxy.py lines 19–110)

Python dicts preserve insertion order with unique keys; a header map is
modelled as an association list.  `filter_headers` is the dict
comprehension at proxy.py line 48; `HOP_BY_HOP_HEADERS` is the set at
lines 19–29 (note: it has nine members; it does not contain
`content-length` or `content-encoding`). -/

/-- Python `str.lower()` restricted to ASCII, which covers every header
name occurring in this development. -/
def pyLowerChar (c : Char) : Char :=
  if 65 ≤ c.toNat ∧ c.toNat ≤ 90 then Char.ofNat (c.toNat + 32) else c

def pyLower (s : String) : String :=
  ⟨s.data.map pyLowerChar⟩

def HOP_BY_HOP_HEADERS : List String :=
  ["connection", "keep-alive", "proxy-authenticate", "proxy-authorization",
   "te", "trailers", "transfer-encoding", "upgrade", "host"]

def filter_headers (headers : List (String × String)) : List (String × String) :=
  headers.filter (fun kv => !(HOP_BY_HOP_HEADERS.contains (pyLower kv.1)))

/-- Embedding of `replace_token_in_headers` (proxy.py lines 51–61): for each
header value, if it contains `access_token` (Python `in`), replace every
occurrence with `provider_token`; otherwise keep the value. -/
def replace_token_in_headers (headers : List (String × String))
    (access_token provider_token : String) : List (String × String) :=
  headers.map (fun kv =>
    if pyContains kv.2 access_token then
      (kv.1, pyReplace kv.2 access_token provider_token)
    else kv)

/-- Embedding of `verify_access_token` (proxy.py lines 64–71): an empty
configured token skips verification; otherwise some header value must
contain the token as a substring. -/
def verify_access_token (headers : List (String × String)) (access_token : String) : Bool :=
  if access_token = "" then true
  else headers.any (fun kv => pyContains kv.2 access_token)

/-- Embedding of `prepare_headers` (proxy.py lines 100–105). -/
def prepare_headers (original_headers : List (String × String))
    (access_token provider_token : String) : List (String × String) :=
  replace_token_in_headers (filter_headers original_headers) access_token provider_token

/-- Embedding of `is_failure_response` (proxy.py lines 108–110). -/
def is_failure_response (status_code : Nat) : Bool :=
  status_code ≥ 500

/-! ## Circuit breaker (circuit_breaker.py)

Wall-clock time is explicit: operations that read `time.time()` take a
`now : ℤ` argument.  `is_open` has the auto-close side effect of
circuit_breaker.py lines 13–23, so it returns the queried flag together
with the possibly-updated breaker. -/

structure CircuitBreaker where
  timeout : ℤ
  failure_threshold : Nat
  tripped_at : Option ℤ
  failure_count : Nat
deriving DecidableEq, Repr

def CircuitBreaker.is_open (b : CircuitBreaker) (now : ℤ) : Bool × CircuitBreaker :=
  match b.tripped_at with
  | none => (false, b)
  | some t =>
    if now - t ≥ b.timeout then
      (false, { b with tripped_at := none, failure_count := 0 })
    else
      (true, b)

def CircuitBreaker.record_failure (b : CircuitBreaker) (now : ℤ) : CircuitBreaker :=
  let c := b.failure_count + 1
  if c ≥ b.failure_threshold then
    { b with failure_count := c, tripped_at := some now }
  else
    { b with failure_count := c }

def CircuitBreaker.record_success (b : CircuitBreaker) : CircuitBreaker :=
  { b with failure_count := 0 }

def CircuitBreaker.trip (b : CircuitBreaker) (now : ℤ) : CircuitBreaker :=
  { b with tripped_at := some now }

def CircuitBreaker.reset (b : CircuitBreaker) : CircuitBreaker :=
  { b with tripped_at := none, failure_count := 0 }

/-! ## Breaker manager (circuit_breaker.py lines 57–87)

`get` creates a breaker lazily on first reference; mutation of a breaker
obtained from the manager is modelled by writing the updated breaker back
with `setBreaker` (in Python the dict holds the mutated object). -/

def lookupBreaker : List (String × CircuitBreaker) → String → Option CircuitBreaker
  | [], _ => none
  | (n, b) :: rest, name => if n = name then some b else lookupBreaker rest name

def setBreaker : List (String × CircuitBreaker) → String → CircuitBreaker →
    List (String × CircuitBreaker)
  | [], name, b => [(name, b)]
  | (n, b0) :: rest, name, b =>
    if n = name then (n, b) :: rest else (n, b0) :: setBreaker rest name b

structure CircuitBreakerManager where
  timeout : ℤ
  failure_threshold : Nat
  breakers : List (String × CircuitBreaker)
deriving DecidableEq, Repr

def CircuitBreakerManager.get (m : CircuitBreakerManager) (name : String) :
    CircuitBreaker × CircuitBreakerManager :=
  match lookupBreaker m.breakers name with
  | some b => (b, m)
  | none =>
    let b : CircuitBreaker := ⟨m.timeout, m.failure_threshold, none, 0⟩
    (b, { m with breakers := m.breakers ++ [(name, b)] })

def CircuitBreakerManager.set (m : CircuitBreakerManager) (name : String)
    (b : CircuitBreaker) : CircuitBreakerManager :=
  { m with breakers := setBreaker m.breakers name b }

/-! ## Python `json.loads` on byte strings

`is_stream_request` and `extract_model` (proxy.py lines 74–89) call
`json.loads(body)` with `body : bytes` and catch only
`json.JSONDecodeError` and `AttributeError`.  CPython's `json.loads` on
bytes first decodes them (`s.decode(detect_encoding(s), 'surrogatepass')`),
which raises `UnicodeDecodeError` — not a `JSONDecodeError` — on bytes
that do not decode.  The byte-decoding stage and the JSON grammar are
embedded below; codepoints are `Nat` (surrogates can occur via
`surrogatepass`, so `Char` is not usable). -/

inductive PyEncoding where
  | utf8 | utf8sig | utf16 | utf16be | utf16le | utf32 | utf32be | utf32le
deriving DecidableEq, Repr

/-- Embedding of `json.detect_encoding` from CPython's `json/__init__.py`:
BOM sniffing followed by null-byte heuristics, defaulting to UTF-8. -/
def detect_encoding (b : List Nat) : PyEncoding :=
  if [0x00, 0x00, 0xFE, 0xFF].isPrefixOf b ∨ [0xFF, 0xFE, 0x00, 0x00].isPrefixOf b then
    .utf32
  else if [0xFE, 0xFF].isPrefixOf b ∨ [0xFF, 0xFE].isPrefixOf b then
    .utf16
  else if [0xEF, 0xBB, 0xBF].isPrefixOf b then
    .utf8sig
  else
    match b with
    | b0 :: b1 :: b2 :: b3 :: _ =>
      if b0 = 0 then (if b1 ≠ 0 then .utf16be else .utf32be)
      else if b1 = 0 then (if b2 ≠ 0 ∨ b3 ≠ 0 then .utf16le else .utf32le)
      else .utf8
    | [b0, b1] =>
      if b0 = 0 then .utf16be
      else if b1 = 0 then .utf16le
      else .utf8
    | _ => .utf8

def contByte (b : Nat) : Bool :=
  decide (0x80 ≤ b ∧ b ≤ 0xBF)

/-- UTF-8 decoding with the `surrogatepass` error handler: strict UTF-8
except that three-byte sequences `ED A0..BF xx` (codepoints U+D800–U+DFFF)
are accepted. -/
def decodeUtf8SP : List Nat → Option (List Nat)
  | [] => some []
  | b :: rest =>
    if b ≤ 0x7F then
      (decodeUtf8SP rest).map (b :: ·)
    else if 0xC2 ≤ b ∧ b ≤ 0xDF then
      match rest with
      | b2 :: rest2 =>
        if contByte b2 then
          (decodeUtf8SP rest2).map (((b - 0xC0) * 0x40 + (b2 - 0x80)) :: ·)
        else none
      | _ => none
    else if 0xE0 ≤ b ∧ b ≤ 0xEF then
      match rest with
      | b2 :: b3 :: rest3 =>
        let lowOk : Bool :=
          if b = 0xE0 then decide (0xA0 ≤ b2 ∧ b2 ≤ 0xBF)
          else contByte b2
        if lowOk ∧ contByte b3 then
          (decodeUtf8SP rest3).map
            (((b - 0xE0) * 0x1000 + (b2 - 0x80) * 0x40 + (b3 - 0x80)) :: ·)
        else none
      | _ => none
    else if 0xF0 ≤ b ∧ b ≤ 0xF4 then
      match rest with
      | b2 :: b3 :: b4 :: rest4 =>
        let lowOk : Bool :=
          if b = 0xF0 then decide (0x90 ≤ b2 ∧ b2 ≤ 0xBF)
          else if b = 0xF4 then decide (0x80 ≤ b2 ∧ b2 ≤ 0x8F)
          else contByte b2
        if lowOk ∧ contByte b3 ∧ contByte b4 then
          (decodeUtf8SP rest4).map
            (((b - 0xF0) * 0x40000 + (b2 - 0x80) * 0x1000 + (b3 - 0x80) * 0x40 + (b4 - 0x80)) :: ·)
        else none
      | _ => none
    else none

/-- UTF-16 decoding worker, fuel-indexed for structural recursion. -/
def decodeUtf16Go (be : Bool) : Nat → List Nat → Option (List Nat)
  | _, [] => some []
  | 0, _ :: _ => none
  | _ + 1, [_] => none
  | fuel + 1, b1 :: b2 :: rest =>
    let u := if be then b1 * 256 + b2 else b2 * 256 + b1
    if 0xD800 ≤ u ∧ u ≤ 0xDBFF then
      match rest with
      | b3 :: b4 :: rest2 =>
        let u2 := if be then b3 * 256 + b4 else b4 * 256 + b3
        if 0xDC00 ≤ u2 ∧ u2 ≤ 0xDFFF then
          (decodeUtf16Go be fuel rest2).map
            ((0x10000 + (u - 0xD800) * 0x400 + (u2 - 0xDC00)) :: ·)
        else
          (decodeUtf16Go be fuel rest).map (u :: ·)
      | _ => (decodeUtf16Go be fuel rest).map (u :: ·)
    else
      (decodeUtf16Go be fuel rest).map (u :: ·)

/-- UTF-16 decoding (big-endian when `be`) with `surrogatepass`: valid
surrogate pairs combine, lone surrogates pass through, truncated input
fails. -/
def decodeUtf16SP (be : Bool) (b : List Nat) : Option (List Nat) :=
  decodeUtf16Go be b.length b

/-- UTF-32 decoding (big-endian when `be`) with `surrogatepass`. -/
def decodeUtf32SP (be : Bool) : List Nat → Option (List Nat)
  | [] => some []
  | b1 :: b2 :: b3 :: b4 :: rest =>
    let u := if be then ((b1 * 256 + b2) * 256 + b3) * 256 + b4
             else ((b4 * 256 + b3) * 256 + b2) * 256 + b1
    if u ≤ 0x10FFFF then (decodeUtf32SP be rest).map (u :: ·) else none
  | _ => none

/-- The byte-decoding stage of `json.loads` on `bytes` input:
`s.decode(detect_encoding(s), 'surrogatepass')`.  `none` models a raised
`UnicodeDecodeError`. -/
def pyDecodeBytes (b : List Nat) : Option (List Nat) :=
  match detect_encoding b with
  | .utf8 => decodeUtf8SP b
  | .utf8sig => decodeUtf8SP (b.drop 3)
  | .utf16 =>
    if [0xFE, 0xFF].isPrefixOf b then decodeUtf16SP true (b.drop 2)
    else decodeUtf16SP false (b.drop 2)
  | .utf16be => decodeUtf16SP true b
  | .utf16le => decodeUtf16SP false b
  | .utf32 =>
    if [0x00, 0x00, 0xFE, 0xFF].isPrefixOf b then decodeUtf32SP true (b.drop 4)
    else decodeUtf32SP false (b.drop 4)
  | .utf32be => decodeUtf32SP true b
  | .utf32le => decodeUtf32SP false b

/-! ## The JSON grammar of Python's `json` module

Values as Python builds them: JSON `null` decodes to Python `None`
(constructor `null`), numbers are kept as their lexemes (their numeric
value is irrelevant to the claims; only the identity `is True` matters,
and a number is never the `True` object), object keys map to values with
duplicate keys resolved last-wins as in `dict`. -/

inductive PyJson where
  | null
  | bool (b : Bool)
  | num (lexeme : List Nat)
  | str (s : List Nat)
  | arr (xs : List PyJson)
  | obj (fields : List (List Nat × PyJson))

def PyJson.isTrue : PyJson → Bool
  | .bool true => true
  | _ => false

def objInsert (fields : List (List Nat × PyJson)) (k : List Nat) (v : PyJson) :
    List (List Nat × PyJson) :=
  match fields with
  | [] => [(k, v)]
  | (k0, v0) :: rest => if k0 = k then (k0, v) :: rest else (k0, v0) :: objInsert rest k v

def objLookup (fields : List (List Nat × PyJson)) (k : List Nat) : Option PyJson :=
  match fields with
  | [] => none
  | (k0, v0) :: rest => if k0 = k then some v0 else objLookup rest k

def jsonWs (c : Nat) : Bool :=
  decide (c = 0x20 ∨ c = 0x09 ∨ c = 0x0A ∨ c = 0x0D)

def skipWs : List Nat → List Nat
  | [] => []
  | c :: rest => if jsonWs c then skipWs rest else c :: rest

def hexVal (c : Nat) : Option Nat :=
  if 48 ≤ c ∧ c ≤ 57 then some (c - 48)
  else if 97 ≤ c ∧ c ≤ 102 then some (c - 87)
  else if 65 ≤ c ∧ c ≤ 70 then some (c - 55)
  else none

def parseU4 : List Nat → Option (Nat × List Nat)
  | c1 :: c2 :: c3 :: c4 :: rest =>
    match hexVal c1, hexVal c2, hexVal c3, hexVal c4 with
    | some h1, some h2, some h3, some h4 =>
      some (((h1 * 16 + h2) * 16 + h3) * 16 + h4, rest)
    | _, _, _, _ => none
  | _ => none

def escChar (e : Nat) : Option Nat :=
  if e = 0x22 then some 0x22
  else if e = 0x5C then some 0x5C
  else if e = 0x2F then some 0x2F
  else if e = 0x62 then some 0x08
  else if e = 0x66 then some 0x0C
  else if e = 0x6E then some 0x0A
  else if e = 0x72 then some 0x0D
  else if e = 0x74 then some 0x09
  else none

/-- Embedding of `json.decoder.py_scanstring` in strict mode, positioned
after the opening quote: returns the string's codepoints and the input
after the closing quote.  `\uXXXX` escapes join valid surrogate pairs and
keep lone surrogates; raw control characters below U+0020 are rejected. -/
def scanString : Nat → List Nat → Option (List Nat × List Nat)
  | 0, _ => none
  | _ + 1, [] => none
  | fuel + 1, c :: rest =>
    if c = 0x22 then some ([], rest)
    else if c = 0x5C then
      match rest with
      | [] => none
      | e :: rest2 =>
        if e = 0x75 then
          match parseU4 rest2 with
          | none => none
          | some (u, rest3) =>
            if 0xD800 ≤ u ∧ u ≤ 0xDBFF then
              match rest3 with
              | 0x5C :: 0x75 :: rest4 =>
                match parseU4 rest4 with
                | some (u2, rest5) =>
                  if 0xDC00 ≤ u2 ∧ u2 ≤ 0xDFFF then
                    (scanString fuel rest5).map
                      (fun p => ((0x10000 + (u - 0xD800) * 0x400 + (u2 - 0xDC00)) :: p.1, p.2))
                  else
                    (scanString fuel rest3).map (fun p => (u :: p.1, p.2))
                | none => (scanString fuel rest3).map (fun p => (u :: p.1, p.2))
              | _ => (scanString fuel rest3).map (fun p => (u :: p.1, p.2))
            else
              (scanString fuel rest3).map (fun p => (u :: p.1, p.2))
        else
          match escChar e with
          | some ec => (scanString fuel rest2).map (fun p => (ec :: p.1, p.2))
          | none => none
    else if c < 0x20 then none
    else (scanString fuel rest).map (fun p => (c :: p.1, p.2))

def isDigit (c : Nat) : Bool :=
  decide (48 ≤ c ∧ c ≤ 57)

def takeDigits : List Nat → (List Nat × List Nat)
  | [] => ([], [])
  | c :: rest =>
    if isDigit c then
      let p := takeDigits rest
      (c :: p.1, p.2)
    else ([], c :: rest)

/-- Maximal match of the Python `json` number regular expression
`-?(0|[1-9]\d*)(\.\d+)?([eE][+-]?\d+)?` at the head of the input. -/
def scanNumber (s : List Nat) : Option (List Nat × List Nat) :=
  let signInt : Option (List Nat × List Nat) :=
    match s with
    | 0x2D :: c :: rest =>
      if c = 48 then some ([0x2D, 48], rest)
      else if isDigit c then
        let p := takeDigits rest
        some (0x2D :: c :: p.1, p.2)
      else none
    | c :: rest =>
      if c = 48 then some ([48], rest)
      else if isDigit c then
        let p := takeDigits rest
        some (c :: p.1, p.2)
      else none
    | [] => none
  match signInt with
  | none => none
  | some (intPart, s1) =>
    let fracState : List Nat × List Nat :=
      match s1 with
      | 0x2E :: c :: rest =>
        if isDigit c then
          let p := takeDigits rest
          (0x2E :: c :: p.1, p.2)
        else ([], s1)
      | _ => ([], s1)
    let s2 := fracState.2
    let expState : List Nat × List Nat :=
      match s2 with
      | e :: 0x2B :: c :: rest =>
        if (e = 0x65 ∨ e = 0x45) ∧ isDigit c then
          let p := takeDigits rest
          (e :: 0x2B :: c :: p.1, p.2)
        else ([], s2)
      | e :: 0x2D :: c :: rest =>
        if (e = 0x65 ∨ e = 0x45) ∧ isDigit c then
          let p := takeDigits rest
          (e :: 0x2D :: c :: p.1, p.2)
        else ([], s2)
      | e :: c :: rest =>
        if (e = 0x65 ∨ e = 0x45) ∧ isDigit c then
          let p := takeDigits rest
          (e :: c :: p.1, p.2)
        else ([], s2)
      | _ => ([], s2)
    some (intPart ++ fracState.1 ++ expState.1, expState.2)

/-- One parsing job: a single value, the items of an array after `[`, or
the members of an object after `{` (with the fields accumulated so far). -/
inductive ParseJob where
  | value
  | items (acc : List PyJson)
  | members (acc : List (List Nat × PyJson))

def strCodes (s : String) : List Nat :=
  s.data.map Char.toNat

/-- Fuel-indexed recursive-descent parser mirroring the acceptance
behaviour of `json.decoder` (`py_make_scanner` order of alternatives,
including the `NaN` / `Infinity` constants).  Whitespace handling between
tokens is uniform `skipWs`, which accepts the same documents. -/
def parseStep : Nat → ParseJob → List Nat → Option (PyJson × List Nat)
  | 0, _, _ => none
  | fuel + 1, .value, s =>
    match s with
    | [] => none
    | c :: rest =>
      if c = 0x22 then
        (scanString (rest.length + 1) rest).map (fun p => (.str p.1, p.2))
      else if c = 0x7B then
        let s1 := skipWs rest
        match s1 with
        | 0x7D :: r => some (.obj [], r)
        | _ => parseStep fuel (.members []) s1
      else if c = 0x5B then
        let s1 := skipWs rest
        match s1 with
        | 0x5D :: r => some (.arr [], r)
        | _ => parseStep fuel (.items []) s1
      else if (strCodes "null").isPrefixOf s then
        some (.null, s.drop 4)
      else if (strCodes "true").isPrefixOf s then
        some (.bool true, s.drop 4)
      else if (strCodes "false").isPrefixOf s then
        some (.bool false, s.drop 5)
      else
        match scanNumber s with
        | some p => some (.num p.1, p.2)
        | none =>
          if (strCodes "NaN").isPrefixOf s then some (.num (strCodes "NaN"), s.drop 3)
          else if (strCodes "Infinity").isPrefixOf s then
            some (.num (strCodes "Infinity"), s.drop 8)
          else if (strCodes "-Infinity").isPrefixOf s then
            some (.num (strCodes "-Infinity"), s.drop 9)
          else none
  | fuel + 1, .items acc, s =>
    match parseStep fuel .value s with
    | none => none
    | some (v, r) =>
      match skipWs r with
      | 0x5D :: rr => some (.arr (acc ++ [v]), rr)
      | 0x2C :: rr => parseStep fuel (.items (acc ++ [v])) (skipWs rr)
      | _ => none
  | fuel + 1, .members acc, s =>
    match s with
    | 0x22 :: rest =>
      match scanString (rest.length + 1) rest with
      | none => none
      | some (key, r1) =>
        match skipWs r1 with
        | 0x3A :: r2 =>
          match parseStep fuel .value (skipWs r2) with
          | none => none
          | some (v, r3) =>
            let acc1 := objInsert acc key v
            match skipWs r3 with
            | 0x7D :: rr => some (.obj acc1, rr)
            | 0x2C :: rr => parseStep fuel (.members acc1) (skipWs rr)
            | _ => none
        | _ => none
    | _ => none

/-- Embedding of `json.loads` applied to an already decoded codepoint
sequence: parse one value surrounded by whitespace; trailing input is an
error ("Extra data"). -/
def pyParseJson (cps : List Nat) : Option PyJson :=
  match parseStep (2 * cps.length + 2) .value (skipWs cps) with
  | some (v, r) => if skipWs r = [] then some v else none
  | none => none

inductive PyExn where
  | unicodeDecodeError
  | jsonDecodeError
  | attributeError (name : String)
deriving DecidableEq, Repr

/-- Embedding of `json.loads(body)` for `body : bytes`: decode the bytes
(raising `UnicodeDecodeError` on failure), then parse (raising
`JSONDecodeError` on failure). -/
def pyJsonLoads (body : List Nat) : Except PyExn PyJson :=
  match pyDecodeBytes body with
  | none => .error .unicodeDecodeError
  | some cps =>
    match pyParseJson cps with
    | none => .error .jsonDecodeError
    | some v => .ok v

/-- Embedding of `is_stream_request` (proxy.py lines 74–81):
`data.get("stream", False) is True` guarded by
`except (json.JSONDecodeError, AttributeError): return False`.  A
non-dict value makes `.get` raise `AttributeError`, which the handler
catches; a `UnicodeDecodeError` from `json.loads` is not caught and
propagates. -/
def is_stream_request (body : List Nat) : Except PyExn Bool :=
  match pyJsonLoads body with
  | .ok (.obj fields) =>
    .ok (match objLookup fields (strCodes "stream") with
         | some v => v.isTrue
         | none => false)
  | .ok _ => .ok false
  | .error .jsonDecodeError => .ok false
  | .error (.attributeError _) => .ok false
  | .error e => .error e

/-- Embedding of `extract_model` (proxy.py lines 83–89): `data.get("model")`
with the same exception handler; a missing key and JSON `null` both come
back as Python `None` (constructor `PyJson.null`). -/
def extract_model (body : List Nat) : Except PyExn PyJson :=
  match pyJsonLoads body with
  | .ok (.obj fields) =>
    .ok (match objLookup fields (strCodes "model") with
         | some v => v
         | none => .null)
  | .ok _ => .ok .null
  | .error .jsonDecodeError => .ok .null
  | .error (.attributeError _) => .ok .null
  | .error e => .error e

/-! ## Synthetic response bodies (proxy.py lines 151–155, 293–297, 421–425) -/

def UNAUTHORIZED_BODY : String :=
  "\x7b\"error\": \"Unauthorized\", \"detail\": \"Invalid access token\"\x7d"

def badGatewayBody (lastErr : Option String) : String :=
  let d := match lastErr with
           | some m => m
           | none => "All providers unavailable"
  "\x7b\"error\": \"Bad Gateway\", \"detail\": \"" ++ d ++ "\"\x7d"

def STREAM_BAD_GATEWAY_BODY : String :=
  "\x7b\"error\": \"Bad Gateway\", \"detail\": \"All providers unavailable\"\x7d"

/-- Embedding of `build_target_url` (proxy.py lines 92–97). -/
def build_target_url (base_url path query : String) : String :=
  if query ≠ "" then base_url ++ path ++ "?" ++ query
  else base_url ++ path

/-! ## The two request pipelines (proxy.py lines 181–297 and 300–425)

The loop bodies read `provider.name` and `provider.auth_token`;
`config.Provider` declares `token`, not `auth_token` — that mismatch is
settled separately with the literal `Config`/`Provider` attribute model
below.  Here the loops themselves are embedded over a record carrying the
attributes they read, so the control flow of the attempt loops can be
analysed.

Upstream behaviour is an oracle mapping a provider's position in the
priority list to the outcome of the (at most one) request issued to it:
an HTTP response or a transport error (`httpx.RequestError`).  Wall-clock
time is held fixed at `now` for the request.  URL and forward-header
construction (verified separately as `build_target_url` /
`prepare_headers`) do not influence the control flow and are not repeated
inside the loop.  Each result records, besides the response and the final
manager state, the positions of the providers actually contacted (in
order) and the position of the provider whose response body was returned
to the client (`none` for a synthetic 502). -/

structure PipelineProvider where
  name : String
  base_url : String
  auth_token : String
deriving DecidableEq, Repr

inductive Outcome where
  | http (status : Nat) (body : String) (headers : List (String × String))
  | transportError (msg : String)
deriving DecidableEq, Repr

structure Resp where
  status : Nat
  body : String
  headers : List (String × String)
deriving DecidableEq, Repr

structure PipelineResult where
  resp : Resp
  mgr : CircuitBreakerManager
  contacted : List Nat
  source : Option Nat
deriving DecidableEq, Repr

/-- Worker for `_handle_normal_request`: walks the providers carrying the
manager, the latest 5xx response (`last_response`), the latest transport
error (`last_error`) and the contact trace.  After `record_failure` the
code re-queries `is_open` to decide whether to log a circuit-opened
event; that query's auto-close side effect is preserved. -/
def handleNormalAux (oracle : Nat → Outcome) (now : ℤ) :
    List (Nat × PipelineProvider) → CircuitBreakerManager →
    Option (Nat × Nat × String × List (String × String)) → Option String →
    List Nat → PipelineResult
  | [], mgr, lastResp, lastErr, contacted =>
    match lastResp with
    | some (i, st, bd, hs) => ⟨⟨st, bd, filter_headers hs⟩, mgr, contacted, some i⟩
    | none => ⟨⟨502, badGatewayBody lastErr, []⟩, mgr, contacted, none⟩
  | (i, p) :: rest, mgr, lastResp, lastErr, contacted =>
    let gp := mgr.get p.name
    let op := gp.1.is_open now
    let mgr1 := gp.2.set p.name op.2
    match op.1 with
    | true =>
      handleNormalAux oracle now rest mgr1 lastResp lastErr contacted
    | false =>
      match oracle i with
      | .http st bd hs =>
        match is_failure_response st with
        | false =>
          ⟨⟨st, bd, filter_headers hs⟩, mgr1.set p.name op.2.record_success,
            contacted ++ [i], some i⟩
        | true =>
          let br2 := op.2.record_failure now
          let chk := br2.is_open now
          handleNormalAux oracle now rest (mgr1.set p.name chk.2)
            (some (i, st, bd, hs)) lastErr (contacted ++ [i])
      | .transportError msg =>
        let br2 := op.2.record_failure now
        let chk := br2.is_open now
        handleNormalAux oracle now rest (mgr1.set p.name chk.2)
          lastResp (some msg) (contacted ++ [i])

/-- Embedding of `_handle_normal_request` (proxy.py lines 181–297). -/
def handle_normal_request (providers : List PipelineProvider)
    (mgr : CircuitBreakerManager) (oracle : Nat → Outcome) (now : ℤ) : PipelineResult :=
  handleNormalAux oracle now providers.enum mgr none none []

/-- Worker for `_handle_streaming_request`: same walk, but no
`last_response` is kept — a 5xx is drained for logging and the loop moves
on. -/
def handleStreamingAux (oracle : Nat → Outcome) (now : ℤ) :
    List (Nat × PipelineProvider) → CircuitBreakerManager → List Nat → PipelineResult
  | [], mgr, contacted => ⟨⟨502, STREAM_BAD_GATEWAY_BODY, []⟩, mgr, contacted, none⟩
  | (i, p) :: rest, mgr, contacted =>
    let gp := mgr.get p.name
    let op := gp.1.is_open now
    let mgr1 := gp.2.set p.name op.2
    match op.1 with
    | true =>
      handleStreamingAux oracle now rest mgr1 contacted
    | false =>
      match oracle i with
      | .http st bd hs =>
        match is_failure_response st with
        | true =>
          let br2 := op.2.record_failure now
          let chk := br2.is_open now
          handleStreamingAux oracle now rest (mgr1.set p.name chk.2) (contacted ++ [i])
        | false =>
          ⟨⟨st, bd, filter_headers hs⟩, mgr1.set p.name op.2.record_success,
            contacted ++ [i], some i⟩
      | .transportError _ =>
        let br2 := op.2.record_failure now
        let chk := br2.is_open now
        handleStreamingAux oracle now rest (mgr1.set p.name chk.2) (contacted ++ [i])

/-- Embedding of `_handle_streaming_request` (proxy.py lines 300–425). -/
def handle_streaming_request (providers : List PipelineProvider)
    (mgr : CircuitBreakerManager) (oracle : Nat → Outcome) (now : ℤ) : PipelineResult :=
  handleStreamingAux oracle now providers.enum mgr []

/-- The access-token gate of `proxy_request` (proxy.py lines 149–155):
`some r` is the terminal 401 response, `none` means the request proceeds. -/
def authStage (headers : List (String × String)) (access_token : String) : Option Resp :=
  if verify_access_token headers access_token then none
  else some ⟨401, UNAUTHORIZED_BODY, []⟩

/-- Embedding of the body of `proxy_request` from the auth check onward
(proxy.py lines 146–178): check the token, inspect the body, dispatch to
the streaming or the buffered pipeline.  `extract_model` is also called
there but can only raise when `is_stream_request` already raised on the
same body, so its exceptions add no behaviour. -/
def proxy_request_core (access_token : String) (headers : List (String × String))
    (body : List Nat) (providers : List PipelineProvider)
    (mgr : CircuitBreakerManager) (oracle : Nat → Outcome) (now : ℤ) :
    Except PyExn PipelineResult :=
  match authStage headers access_token with
  | some r => .ok ⟨r, mgr, [], none⟩
  | none =>
    match is_stream_request body with
    | .error e => .error e
    | .ok true => .ok (handle_streaming_request providers mgr oracle now)
    | .ok false => .ok (handle_normal_request providers mgr oracle now)

/-! ## The configuration dataclasses and Python attribute access
(config.py lines 9–28)

`proxy.get_breaker_manager` (proxy.py lines 35–43) reads
`config.circuit_breaker_timeout` and `config.circuit_breaker_threshold`,
and the pipelines read `provider.auth_token`.  Python resolves attribute
names dynamically, so an attribute read is embedded as a lookup among the
attributes the dataclass declares; a name not declared raises
`AttributeError` (modelled as `none`). -/

structure Provider where
  name : String
  base_url : String
  token : String
deriving DecidableEq, Repr

structure CircuitBreakerConfig where
  failure_threshold : Nat
  reset_timeout : ℚ
  probe_probability : ℚ
deriving DecidableEq, Repr

structure Config where
  access_token : String
  timeout : ℚ
  circuit_breaker : CircuitBreakerConfig
  providers : List Provider

inductive PyAttrVal where
  | str (s : String)
  | rat (q : ℚ)
  | nat (n : Nat)
  | cb (c : CircuitBreakerConfig)
  | providerList (ps : List Provider)

/-- Attribute lookup on a `Config` instance: exactly the four fields the
dataclass in config.py declares resolve. -/
def Config.getattr (c : Config) : String → Option PyAttrVal
  | "access_token" => some (.str c.access_token)
  | "timeout" => some (.rat c.timeout)
  | "circuit_breaker" => some (.cb c.circuit_breaker)
  | "providers" => some (.providerList c.providers)
  | _ => none

/-- Attribute lookup on a `Provider` instance: the dataclass declares
`name`, `base_url` and `token` (there is no `auth_token`). -/
def Provider.getattr (p : Provider) : String → Option PyAttrVal
  | "name" => some (.str p.name)
  | "base_url" => some (.str p.base_url)
  | "token" => some (.str p.token)
  | _ => none

def pyAttrAsInt : PyAttrVal → ℤ
  | .nat n => n
  | _ => 0

def pyAttrAsNat : PyAttrVal → Nat
  | .nat n => n
  | _ => 0

/-- Embedding of `get_breaker_manager` (proxy.py lines 35–43): on first
call (`mgr0 = none`, the module-level `_breaker_manager` starts as `None`
and nothing else in src/ assigns it) it reads
`config.circuit_breaker_timeout` and `config.circuit_breaker_threshold`
to construct the manager.  The success branch is provably unreachable
because `Config` declares neither attribute. -/
def get_breaker_manager (mgr0 : Option CircuitBreakerManager) (config : Config) :
    Except PyExn CircuitBreakerManager :=
  match mgr0 with
  | some m => .ok m
  | none =>
    match config.getattr "circuit_breaker_timeout" with
    | none => .error (.attributeError "circuit_breaker_timeout")
    | some tv =>
      match config.getattr "circuit_breaker_threshold" with
      | none => .error (.attributeError "circuit_breaker_threshold")
      | some thv => .ok ⟨pyAttrAsInt tv, pyAttrAsNat thv, []⟩

/-! ## The provider selector described by the specification -/

/-- Modelled from the spec: §4.4 "Provider Selector".  The function
`select_provider` is absent from src/transparent_gateway/proxy.py — only
its unit tests (`tests/unit/test_proxy_helpers.py::TestSelectProvider`)
reference it — so the spec's two-step probe algorithm is reproduced here
for comparison with the selection the pipelines actually perform.
`isOpenAt i` is the openness of provider `i`'s breaker, `r` the uniform
draw from [0,1), `p` the probe probability, and `pick` resolves the
uniform choice among the open non-last candidates.  Returns
`(index, is_probe)`. -/
def specSelectProvider (providers : List PipelineProvider) (isOpenAt : Nat → Bool)
    (p r : ℚ) (pick : Nat) : Option (Nat × Bool) :=
  let n := providers.length
  let candidates := (List.range (n - 1)).filter (fun i => isOpenAt i)
  if r < p ∧ candidates ≠ [] then
    some (candidates.getD (pick % candidates.length) 0, true)
  else
    ((List.range n).find? (fun i => decide (i = n - 1) || !(isOpenAt i))).map
      (fun i => (i, false))

/-! ## Shared concrete instances for the claim theorems

These mirror the fixtures of the repository's test suite
(`tests/conftest.py`): two providers `primary`/`backup`, breaker timeout
60, failure threshold 3. -/

def samplePrimary : PipelineProvider :=
  ⟨"primary", "https://api.primary.com", "pk-primary"⟩

def sampleBackup : PipelineProvider :=
  ⟨"backup", "https://api.backup.com", "pk-backup"⟩

def sampleManager : CircuitBreakerManager := ⟨60, 3, []⟩

/-- Manager state in which the breaker of the last provider (`backup`)
tripped at time 0 with the failure threshold reached. -/
def sampleManagerBackupOpen : CircuitBreakerManager :=
  ⟨60, 3, [("backup", ⟨60, 3, some 0, 3⟩)]⟩

/-- Manager state in which the breaker of the first provider (`primary`)
tripped at time 0 with the failure threshold reached. -/
def sampleManagerPrimaryOpen : CircuitBreakerManager :=
  ⟨60, 3, [("primary", ⟨60, 3, some 0, 3⟩)]⟩

def oracleAll500 : Nat → Outcome := fun _ => .http 500 "err" []

def oracleAll200 : Nat → Outcome := fun _ => .http 200 "ok" []

def oracleRefused : Nat → Outcome := fun _ => .transportError "Connection refused"

/-- First provider answers 500, every later one answers 200. -/
def oracleFailover : Nat → Outcome :=
  fun i => if i = 0 then .http 500 "err" [] else .http 200 "ok" []

/-! ## Claim theorems -/

/-- C1: the claim states that `proxy_request` always returns an HTTP
response, naming in particular the paths that read breaker settings from
the config and that build forward headers from the provider's token.  On
the code the opposite holds: the unconditional `get_breaker_manager()`
call reads `config.circuit_breaker_timeout`, an attribute no `Config`
value resolves, so every invocation raises `AttributeError` before any
response can be produced; likewise `provider.auth_token` resolves for no
`Provider` (the dataclass declares `token`). -/
theorem proxyEntryRaisesAttributeError :
    (∀ config : Config,
      get_breaker_manager none config = .error (.attributeError "circuit_breaker_timeout")) ∧
    (∀ p : Provider, p.getattr "auth_token" = none) :=
  ⟨fun _ => rfl, fun _ => rfl⟩

/-- C2: evaluation of the embedded pipelines refuting the last-provider
rule.  With the last provider's (`backup`) breaker open, both pipelines
skip it (`contacted = [0]`, position 1 never appears); and on an all-5xx
run starting from fresh breakers, both pipelines increment the last
provider's `failure_count` to 1. -/
theorem lastProviderSkippedAndBumped :
    (handle_normal_request [samplePrimary, sampleBackup] sampleManagerBackupOpen
      oracleRefused 1).contacted = [0] ∧
    (handle_streaming_request [samplePrimary, sampleBackup] sampleManagerBackupOpen
      oracleRefused 1).contacted = [0] ∧
    lookupBreaker (handle_normal_request [samplePrimary, sampleBackup] sampleManager
      oracleAll500 0).mgr.breakers "backup" = some ⟨60, 3, none, 1⟩ ∧
    lookupBreaker (handle_streaming_request [samplePrimary, sampleBackup] sampleManager
      oracleAll500 0).mgr.breakers "backup" = some ⟨60, 3, none, 1⟩ :=
  ⟨rfl, rfl, rfl, rfl⟩

/-- C3: the spec's two-step probe selector (`specSelectProvider`, modelled
from §4.4 because `select_provider` is absent from src/proxy.py) returns
`(0, is_probe = true)` when `r = 1/100 < p = 1/20` and provider 0's
breaker is open; the embedded pipelines at the same breaker state contact
provider 1 first and only (`contacted = [1]`) — they have no probe path
and no random draw at all. -/
theorem noProbePathInPipelines :
    specSelectProvider [samplePrimary, sampleBackup] (fun i => i == 0)
      (1/20) (1/100) 0 = some (0, true) ∧
    (handle_normal_request [samplePrimary, sampleBackup] sampleManagerPrimaryOpen
      oracleAll200 1).contacted = [1] ∧
    (handle_streaming_request [samplePrimary, sampleBackup] sampleManagerPrimaryOpen
      oracleAll200 1).contacted = [1] := by
  refine ⟨?_, rfl, rfl⟩
  norm_num [specSelectProvider]
  decide

/-- C5: evaluation of `filter_headers` refuting the claimed hop-by-hop
set: `CONTENT-LENGTH` and `Content-Encoding` headers pass through
unfiltered (the set in proxy.py has only nine members), exactly the
inputs of the failing unit tests
`test_case_insensitive` / `test_removes_content_encoding`; the nine
listed names are filtered case-insensitively. -/
theorem contentLengthNotFiltered :
    filter_headers [("CONTENT-LENGTH", "100"), ("X-Custom", "value")]
      = [("CONTENT-LENGTH", "100"), ("X-Custom", "value")] ∧
    filter_headers [("Content-Encoding", "gzip"), ("Accept", "application/json")]
      = [("Content-Encoding", "gzip"), ("Accept", "application/json")] ∧
    filter_headers [("Content-Type", "application/json"), ("Connection", "keep-alive"),
        ("Host", "example.com"), ("Authorization", "Bearer token")]
      = [("Content-Type", "application/json"), ("Authorization", "Bearer token")] :=
  ⟨rfl, rfl, rfl⟩

/-- C6 counterexample: on an unauthorized request the engine's 401 body is
`\x7b"error": "Unauthorized", "detail": "Invalid access token"\x7d`, not the
claimed exact body `\x7b"error":"Unauthorized"\x7d`. -/
theorem unauthorizedBodyDiffersFromClaim :
    authStage [("Authorization", "Bearer other")] "secret"
      = some ⟨401, UNAUTHORIZED_BODY, []⟩ ∧
    UNAUTHORIZED_BODY ≠ "\x7b\"error\":\"Unauthorized\"\x7d" :=
  ⟨rfl, by decide⟩

/-- C7: evaluation of `replace_token_in_headers` refuting the empty-token
clause: with `access_token = ""` the value `"ab"` becomes
`"tokatokbtok"` (Python `"" in value` is always true and
`value.replace("", t)` inserts `t` at every position), both directly and
through `prepare_headers`; the non-empty case behaves as claimed. -/
theorem emptyTokenManglesHeaders :
    replace_token_in_headers [("X-Auth", "ab")] "" "tok" = [("X-Auth", "tokatokbtok")] ∧
    prepare_headers [("X-Auth", "ab")] "" "tok" = [("X-Auth", "tokatokbtok")] ∧
    replace_token_in_headers [("Authorization", "Bearer old-token")] "old-token" "new-token"
      = [("Authorization", "Bearer new-token")] :=
  ⟨rfl, rfl, rfl⟩

/-- C8 counterexample: on the single byte `0xFF` (not valid UTF-8),
`json.loads` raises `UnicodeDecodeError`, which the
`except (json.JSONDecodeError, AttributeError)` handlers of
`is_stream_request` and `extract_model` do not catch — both functions
raise instead of returning `(stream = false, model = none)`. -/
theorem bodyInspectionRaisesOnNonUtf8 :
    is_stream_request [0xFF] = .error .unicodeDecodeError ∧
    extract_model [0xFF] = .error .unicodeDecodeError :=
  ⟨rfl, rfl⟩

/-- C10: evaluation of the embedded breaker at the scenario of the failing
unit test `test_auto_reset_callback` (timeout 1, trip at 0, query at 2):
the next `is_open` after the timeout elapses does return `false` and does
clear both `tripped_at` and `failure_count` — but the `CircuitBreaker` in
src/ exposes no auto-reset callback at all (its constructor takes only
`timeout` and `failure_threshold`), so no callback can fire.  Queried
before expiry the breaker stays open and unchanged. -/
theorem autoCloseClearsStateWithoutCallback :
    ((⟨1, 1, none, 0⟩ : CircuitBreaker).trip 0).is_open 2 = (false, ⟨1, 1, none, 0⟩) ∧
    ((⟨1, 1, none, 0⟩ : CircuitBreaker).trip 0).is_open 0 = (true, ⟨1, 1, some 0, 0⟩) :=
  ⟨rfl, rfl⟩

/-! ## Breaker accounting lemmas -/

theorem record_failure_count (b : CircuitBreaker) (t : ℤ) :
    (b.record_failure t).failure_count = b.failure_count + 1 ∧
    (b.record_failure t).failure_threshold = b.failure_threshold ∧
    (b.record_failure t).timeout = b.timeout := by
  unfold CircuitBreaker.record_failure
  dsimp only
  split <;> exact ⟨rfl, rfl, rfl⟩

theorem foldl_record_failure_count (ts : List ℤ) : ∀ b : CircuitBreaker,
    (ts.foldl (fun st t => st.record_failure t) b).failure_count
      = b.failure_count + ts.length ∧
    (ts.foldl (fun st t => st.record_failure t) b).failure_threshold
      = b.failure_threshold ∧
    (ts.foldl (fun st t => st.record_failure t) b).timeout = b.timeout := by
  induction ts with
  | nil => intro b; exact ⟨rfl, rfl, rfl⟩
  | cons t ts ih =>
    intro b
    have h := record_failure_count b t
    have h' := ih (b.record_failure t)
    simp only [List.foldl_cons, List.length_cons]
    refine ⟨?_, ?_, ?_⟩
    · rw [h'.1, h.1]; omega
    · rw [h'.2.1, h.2.1]
    · rw [h'.2.2, h.2.2]

theorem record_failure_trips_at_threshold (b : CircuitBreaker) (t : ℤ)
    (h : b.failure_count + 1 ≥ b.failure_threshold) :
    (b.record_failure t).tripped_at = some t := by
  unfold CircuitBreaker.record_failure
  dsimp only
  rw [if_pos h]

/-- C9: from any starting state, a breaker whose `failure_threshold` is
`k = ts.length + 1 ≥ 1` that receives `k` consecutive `record_failure`
calls (at times `ts ++ [tlast]`, with no intervening `record_success`)
reports `is_open = true` at any query instant `tq` within the reset
window (`tq − tlast < timeout`, i.e. `reset_timeout` has not elapsed);
and `record_success` zeroes `failure_count` while leaving `tripped_at`
unchanged. -/
theorem breakerThresholdOpensAndSuccessResets :
    (∀ (b : CircuitBreaker) (ts : List ℤ) (tlast tq : ℤ),
      b.failure_threshold = ts.length + 1 →
      tq - tlast < b.timeout →
      (((ts ++ [tlast]).foldl (fun st t => st.record_failure t) b).is_open tq).1 = true) ∧
    (∀ b : CircuitBreaker,
      b.record_success.failure_count = 0 ∧
      b.record_success.tripped_at = b.tripped_at) := by
  constructor
  · intro b ts tlast tq hthr helapsed
    rw [List.foldl_append]
    set b1 := ts.foldl (fun st t => st.record_failure t) b with hb1
    have hfold := foldl_record_failure_count ts b
    have htrip : (b1.record_failure tlast).tripped_at = some tlast := by
      apply record_failure_trips_at_threshold
      rw [hfold.1, hfold.2.1, hthr]
      omega
    have htimeout : (b1.record_failure tlast).timeout = b.timeout := by
      rw [(record_failure_count b1 tlast).2.2, hfold.2.2]
    simp only [List.foldl_cons, List.foldl_nil]
    unfold CircuitBreaker.is_open
    rw [htrip]
    simp only [htimeout]
    rw [if_neg (by omega)]
  · intro b
    exact ⟨rfl, rfl⟩

/-- C9 witness: a threshold-2 breaker with two failures at times 0 and 1
is open at time 2 (2 − 1 < 60); `record_success` on a tripped breaker
zeroes the count and keeps `tripped_at = some 5`. -/
theorem breakerThresholdOpensAndSuccessResets_witness :
    ((([(0 : ℤ)] ++ [1]).foldl (fun (st : CircuitBreaker) t => st.record_failure t)
      ⟨60, 2, none, 0⟩).is_open 2).1 = true ∧
    ((⟨60, 2, some 5, 2⟩ : CircuitBreaker).record_success.failure_count = 0 ∧
     (⟨60, 2, some 5, 2⟩ : CircuitBreaker).record_success.tripped_at = some 5) :=
  ⟨breakerThresholdOpensAndSuccessResets.1 ⟨60, 2, none, 0⟩ [0] 1 2 (by decide) (by decide),
   breakerThresholdOpensAndSuccessResets.2 ⟨60, 2, some 5, 2⟩⟩

/-- C6 (amended): a request is authorized iff the configured token is
empty or some header value contains it as a substring (keys ignored); an
unauthorized request is answered with status 401 and the engine's actual
body `\x7b"error": "Unauthorized", "detail": "Invalid access token"\x7d`,
with no provider contacted (`contacted = []`) and breaker state
untouched. -/
theorem authCheckAmended (headers : List (String × String)) (access_token : String)
    (body : List Nat) (providers : List PipelineProvider)
    (mgr : CircuitBreakerManager) (oracle : Nat → Outcome) (now : ℤ) :
    (verify_access_token headers access_token = true ↔
      (access_token = "" ∨ ∃ kv ∈ headers, pyContains kv.2 access_token = true)) ∧
    (verify_access_token headers access_token = false →
      proxy_request_core access_token headers body providers mgr oracle now =
        .ok ⟨⟨401, UNAUTHORIZED_BODY, []⟩, mgr, [], none⟩) := by
  constructor
  · unfold verify_access_token
    by_cases h : access_token = ""
    · simp [h]
    · simp [h, List.any_eq_true]
  · intro h
    unfold proxy_request_core authStage
    rw [h]
    rfl

/-- C6 witness: with configured token `"secret"` and a header map whose
values never contain it, the engine core returns the 401 response with
the actual body, an empty contact trace and the manager unchanged. -/
theorem authCheckAmended_witness :
    proxy_request_core "secret" [("Authorization", "Bearer other")] []
      [samplePrimary, sampleBackup] sampleManager oracleAll200 0 =
      .ok ⟨⟨401, UNAUTHORIZED_BODY, []⟩, sampleManager, [], none⟩ :=
  (authCheckAmended [("Authorization", "Bearer other")] "secret" []
    [samplePrimary, sampleBackup] sampleManager oracleAll200 0).2 (by rfl)

/-- Shape of `pyJsonLoads` failures: only `UnicodeDecodeError` (from the
byte-decoding stage) or `JSONDecodeError` (from parsing), never an
`AttributeError`. -/
theorem pyJsonLoads_error_shape (body : List Nat) :
    ∀ s, pyJsonLoads body ≠ .error (.attributeError s) := by
  intro s
  unfold pyJsonLoads
  cases hd : pyDecodeBytes body with
  | none => simp
  | some cps => cases hp : pyParseJson cps <;> simp [hp]

theorem isTrue_iff (w : PyJson) : w.isTrue = true ↔ w = .bool true := by
  cases w with
  | bool b => cases b <;> simp [PyJson.isTrue]
  | null => simp [PyJson.isTrue]
  | num l => simp [PyJson.isTrue]
  | str s => simp [PyJson.isTrue]
  | arr xs => simp [PyJson.isTrue]
  | obj fs => simp [PyJson.isTrue]

theorem inspect_obj (body : List Nat) (fields : List (List Nat × PyJson))
    (hload : pyJsonLoads body = .ok (.obj fields)) :
    is_stream_request body =
      .ok (match objLookup fields (strCodes "stream") with
           | some w => w.isTrue
           | none => false) ∧
    extract_model body =
      .ok (match objLookup fields (strCodes "model") with
           | some w => w
           | none => PyJson.null) := by
  unfold is_stream_request extract_model
  rw [hload]
  exact ⟨rfl, rfl⟩

theorem inspect_nonobj (body : List Nat) (v : PyJson)
    (hload : pyJsonLoads body = .ok v) (hne : ∀ fields, v ≠ PyJson.obj fields) :
    is_stream_request body = .ok false ∧ extract_model body = .ok PyJson.null := by
  unfold is_stream_request extract_model
  rw [hload]
  cases v with
  | obj fields => exact absurd rfl (hne fields)
  | null => exact ⟨rfl, rfl⟩
  | bool b => exact ⟨rfl, rfl⟩
  | num l => exact ⟨rfl, rfl⟩
  | str s => exact ⟨rfl, rfl⟩
  | arr xs => exact ⟨rfl, rfl⟩

theorem inspect_jsonError (body : List Nat)
    (hload : pyJsonLoads body = .error .jsonDecodeError) :
    is_stream_request body = .ok false ∧ extract_model body = .ok PyJson.null := by
  unfold is_stream_request extract_model
  rw [hload]
  exact ⟨rfl, rfl⟩

theorem inspect_unicodeError (body : List Nat)
    (hload : pyJsonLoads body = .error .unicodeDecodeError) :
    is_stream_request body = .error .unicodeDecodeError ∧
    extract_model body = .error .unicodeDecodeError := by
  unfold is_stream_request extract_model
  rw [hload]
  exact ⟨rfl, rfl⟩

/-- C8 (amended): body inspection is total except on bytes that fail to
decode — `is_stream_request` and `extract_model` either return normally
or raise `UnicodeDecodeError` (never anything else); a JSON parse failure
or a parsed non-object yields `stream = false` and `model = none`
(Python `None`); and `stream` comes back true exactly when the body
parses to a JSON object whose `"stream"` member is the literal boolean
`true`. -/
theorem bodyInspectionAmended (body : List Nat) :
    ((∃ b, is_stream_request body = .ok b) ∨
      is_stream_request body = .error .unicodeDecodeError) ∧
    ((∃ m, extract_model body = .ok m) ∨
      extract_model body = .error .unicodeDecodeError) ∧
    (pyJsonLoads body = .error .jsonDecodeError →
      is_stream_request body = .ok false ∧ extract_model body = .ok PyJson.null) ∧
    (∀ v, pyJsonLoads body = .ok v → (∀ fields, v ≠ PyJson.obj fields) →
      is_stream_request body = .ok false ∧ extract_model body = .ok PyJson.null) ∧
    (is_stream_request body = .ok true ↔
      ∃ fields, pyJsonLoads body = .ok (.obj fields) ∧
        objLookup fields (strCodes "stream") = some (.bool true)) := by
  have hshape := pyJsonLoads_error_shape body
  cases hload : pyJsonLoads body with
  | ok v =>
    have hinsp : ∀ w : PyJson, (∀ fields', w ≠ PyJson.obj fields') → v = w →
        is_stream_request body = .ok false ∧ extract_model body = .ok PyJson.null := by
      intro w hne he
      exact inspect_nonobj body v hload (he ▸ hne)
    cases v with
    | obj fields =>
      obtain ⟨hs, hm⟩ := inspect_obj body fields hload
      refine ⟨.inl ⟨_, hs⟩, .inl ⟨_, hm⟩, fun h => Except.noConfusion h, ?_, ?_, ?_⟩
      · intro w hw hne
        exact absurd (Except.ok.inj hw).symm (hne fields)
      · intro htrue
        rw [hs] at htrue
        have hmatch := Except.ok.inj htrue
        refine ⟨fields, rfl, ?_⟩
        cases hlook : objLookup fields (strCodes "stream") with
        | none => rw [hlook] at hmatch; exact absurd hmatch (by simp)
        | some w =>
          rw [hlook] at hmatch
          rw [(isTrue_iff w).mp hmatch]
      · rintro ⟨fields2, hload2, hlook2⟩
        have hf : PyJson.obj fields = PyJson.obj fields2 := Except.ok.inj hload2
        cases hf
        rw [hs, hlook2]
        rfl
    | null =>
      obtain ⟨hs, hm⟩ := hinsp .null (fun f h => by cases h) rfl
      refine ⟨.inl ⟨_, hs⟩, .inl ⟨_, hm⟩, fun h => Except.noConfusion h,
        fun w hw hne => ⟨hs, hm⟩, ?_, ?_⟩
      · intro htrue
        rw [hs] at htrue
        exact absurd (Except.ok.inj htrue) (by simp)
      · rintro ⟨fields2, hload2, _⟩
        exact PyJson.noConfusion (Except.ok.inj hload2)
    | bool b =>
      obtain ⟨hs, hm⟩ := hinsp (.bool b) (fun f h => by cases h) rfl
      refine ⟨.inl ⟨_, hs⟩, .inl ⟨_, hm⟩, fun h => Except.noConfusion h,
        fun w hw hne => ⟨hs, hm⟩, ?_, ?_⟩
      · intro htrue
        rw [hs] at htrue
        exact absurd (Except.ok.inj htrue) (by simp)
      · rintro ⟨fields2, hload2, _⟩
        exact PyJson.noConfusion (Except.ok.inj hload2)
    | num l =>
      obtain ⟨hs, hm⟩ := hinsp (.num l) (fun f h => by cases h) rfl
      refine ⟨.inl ⟨_, hs⟩, .inl ⟨_, hm⟩, fun h => Except.noConfusion h,
        fun w hw hne => ⟨hs, hm⟩, ?_, ?_⟩
      · intro htrue
        rw [hs] at htrue
        exact absurd (Except.ok.inj htrue) (by simp)
      · rintro ⟨fields2, hload2, _⟩
        exact PyJson.noConfusion (Except.ok.inj hload2)
    | str s =>
      obtain ⟨hs, hm⟩ := hinsp (.str s) (fun f h => by cases h) rfl
      refine ⟨.inl ⟨_, hs⟩, .inl ⟨_, hm⟩, fun h => Except.noConfusion h,
        fun w hw hne => ⟨hs, hm⟩, ?_, ?_⟩
      · intro htrue
        rw [hs] at htrue
        exact absurd (Except.ok.inj htrue) (by simp)
      · rintro ⟨fields2, hload2, _⟩
        exact PyJson.noConfusion (Except.ok.inj hload2)
    | arr xs =>
      obtain ⟨hs, hm⟩ := hinsp (.arr xs) (fun f h => by cases h) rfl
      refine ⟨.inl ⟨_, hs⟩, .inl ⟨_, hm⟩, fun h => Except.noConfusion h,
        fun w hw hne => ⟨hs, hm⟩, ?_, ?_⟩
      · intro htrue
        rw [hs] at htrue
        exact absurd (Except.ok.inj htrue) (by simp)
      · rintro ⟨fields2, hload2, _⟩
        exact PyJson.noConfusion (Except.ok.inj hload2)
  | error e =>
    cases e with
    | unicodeDecodeError =>
      obtain ⟨hs, hm⟩ := inspect_unicodeError body hload
      refine ⟨.inr hs, .inr hm, fun h => PyExn.noConfusion (Except.error.inj h),
        fun w hw => absurd hw (fun hw => Except.noConfusion hw), ?_, ?_⟩
      · intro htrue
        rw [hs] at htrue
        exact Except.noConfusion htrue
      · rintro ⟨fields2, hload2, _⟩
        exact Except.noConfusion hload2
    | jsonDecodeError =>
      obtain ⟨hs, hm⟩ := inspect_jsonError body hload
      refine ⟨.inl ⟨_, hs⟩, .inl ⟨_, hm⟩, fun _ => ⟨hs, hm⟩,
        fun w hw => absurd hw (fun hw => Except.noConfusion hw), ?_, ?_⟩
      · intro htrue
        rw [hs] at htrue
        exact absurd (Except.ok.inj htrue) (by simp)
      · rintro ⟨fields2, hload2, _⟩
        exact Except.noConfusion hload2
    | attributeError s => exact absurd hload (hshape s)

/-- C8 witness: on the body `not json` (a JSON parse failure) both
functions return their defaults, obtained from the amended theorem with
the parse-failure hypothesis discharged by evaluation. -/
theorem bodyInspectionAmended_witness :
    is_stream_request (strCodes "not json") = .ok false ∧
    extract_model (strCodes "not json") = .ok PyJson.null :=
  (bodyInspectionAmended (strCodes "not json")).2.2.1 (by rfl)

/-! ## At-most-one-delivery invariants for the pipelines -/

/-- An outcome the pipelines deliver immediately: an HTTP response with
status below 500 (`not is_failure_response`); transport errors and 5xx
are never delivered on the spot. -/
def deliverable (o : Outcome) : Bool :=
  match o with
  | .http st _ _ => !(is_failure_response st)
  | .transportError _ => false

/-- Invariant of the buffered attempt loop: providers already contacted
(`acc`) all had non-deliverable outcomes and `last_response`, when set,
records the HTTP outcome of a contacted provider; then (1) the final
contact trace extends `acc`, (2) any contacted provider with a
deliverable outcome is the final contact and the delivered source, and
(3) the delivered source is a contacted provider whose HTTP outcome is
exactly the response returned. -/
theorem handleNormalAux_spec (oracle : Nat → Outcome) (now : ℤ) :
    ∀ (l : List (Nat × PipelineProvider)) (mgr : CircuitBreakerManager)
      (lastResp : Option (Nat × Nat × String × List (String × String)))
      (lastErr : Option String) (acc : List Nat),
      (∀ i ∈ acc, deliverable (oracle i) = false) →
      (∀ i st bd hs, lastResp = some (i, st, bd, hs) →
        oracle i = .http st bd hs ∧ i ∈ acc) →
      (∀ i ∈ acc, i ∈ (handleNormalAux oracle now l mgr lastResp lastErr acc).contacted) ∧
      (∀ i ∈ (handleNormalAux oracle now l mgr lastResp lastErr acc).contacted,
        deliverable (oracle i) = true →
        (handleNormalAux oracle now l mgr lastResp lastErr acc).contacted.getLast? = some i ∧
        (handleNormalAux oracle now l mgr lastResp lastErr acc).source = some i) ∧
      (∀ i, (handleNormalAux oracle now l mgr lastResp lastErr acc).source = some i →
        i ∈ (handleNormalAux oracle now l mgr lastResp lastErr acc).contacted ∧
        ∃ st bd hs, oracle i = .http st bd hs ∧
          (handleNormalAux oracle now l mgr lastResp lastErr acc).resp
            = ⟨st, bd, filter_headers hs⟩) := by
  intro l
  induction l with
  | nil =>
    intro mgr lastResp lastErr acc h1 h2
    cases hlr : lastResp with
    | none =>
      simp only [handleNormalAux, hlr]
      refine ⟨fun i hi => hi, fun i hi htrue => ?_, fun i hsrc => ?_⟩
      · have hfalse := h1 i hi
        rw [htrue] at hfalse
        cases hfalse
      · cases hsrc
    | some q =>
      obtain ⟨j, st, bd, hs⟩ := q
      simp only [handleNormalAux, hlr]
      refine ⟨fun i hi => hi, fun i hi htrue => ?_, fun i hsrc => ?_⟩
      · have hfalse := h1 i hi
        rw [htrue] at hfalse
        cases hfalse
      · cases Option.some.inj hsrc
        obtain ⟨ho, hmem⟩ := h2 _ st bd hs hlr
        exact ⟨hmem, st, bd, hs, ho, rfl⟩
  | cons hd tl ih =>
    intro mgr lastResp lastErr acc h1 h2
    obtain ⟨j, p⟩ := hd
    cases hop : ((mgr.get p.name).1.is_open now).1 with
    | true =>
      simp only [handleNormalAux, hop]
      exact ih _ lastResp lastErr acc h1 h2
    | false =>
      cases horacle : oracle j with
      | http st bd hs =>
        cases hfail : is_failure_response st with
        | false =>
          simp only [handleNormalAux, hop, horacle, hfail]
          refine ⟨fun i hi => List.mem_append.mpr (.inl hi),
            fun i hi htrue => ?_, fun i hsrc => ?_⟩
          · rcases List.mem_append.mp hi with hmem | hmem
            · have hfalse := h1 i hmem
              rw [htrue] at hfalse
              cases hfalse
            · cases List.mem_singleton.mp hmem
              exact ⟨List.getLast?_concat acc, rfl⟩
          · cases Option.some.inj hsrc
            exact ⟨List.mem_append.mpr (.inr (List.mem_singleton.mpr rfl)),
              st, bd, hs, horacle, rfl⟩
        | true =>
          simp only [handleNormalAux, hop, horacle, hfail]
          have hh1 : ∀ i ∈ acc ++ [j], deliverable (oracle i) = false := by
            intro i hi
            rcases List.mem_append.mp hi with hmem | hmem
            · exact h1 i hmem
            · cases List.mem_singleton.mp hmem
              simp [deliverable, horacle, hfail]
          have hh2 : ∀ i st2 bd2 hs2,
              (some (j, st, bd, hs) :
                  Option (Nat × Nat × String × List (String × String)))
                = some (i, st2, bd2, hs2) →
              oracle i = .http st2 bd2 hs2 ∧ i ∈ acc ++ [j] := by
            intro i st2 bd2 hs2 heq
            have h3 := Option.some.inj heq
            injection h3 with hji h3
            injection h3 with hst h3
            injection h3 with hbd hhs
            subst hji; subst hst; subst hbd; subst hhs
            exact ⟨horacle, List.mem_append.mpr (.inr (List.mem_singleton.mpr rfl))⟩
          obtain ⟨ihm, ih2, ih3⟩ := ih _ _ lastErr (acc ++ [j]) hh1 hh2
          exact ⟨fun i hi => ihm i (List.mem_append.mpr (.inl hi)), ih2, ih3⟩
      | transportError msg =>
        simp only [handleNormalAux, hop, horacle]
        have hh1 : ∀ i ∈ acc ++ [j], deliverable (oracle i) = false := by
          intro i hi
          rcases List.mem_append.mp hi with hmem | hmem
          · exact h1 i hmem
          · cases List.mem_singleton.mp hmem
            simp [deliverable, horacle]
        have hh2 : ∀ i st2 bd2 hs2, lastResp = some (i, st2, bd2, hs2) →
            oracle i = .http st2 bd2 hs2 ∧ i ∈ acc ++ [j] := by
          intro i st2 bd2 hs2 heq
          obtain ⟨ho, hmem⟩ := h2 i st2 bd2 hs2 heq
          exact ⟨ho, List.mem_append.mpr (.inl hmem)⟩
        obtain ⟨ihm, ih2, ih3⟩ := ih _ lastResp _ (acc ++ [j]) hh1 hh2
        exact ⟨fun i hi => ihm i (List.mem_append.mpr (.inl hi)), ih2, ih3⟩

/-- Invariant of the streaming attempt loop: with every already contacted
provider non-deliverable, the final trace extends `acc`, a contacted
deliverable provider is the final contact and the committed source, and
the committed source's HTTP outcome is exactly the streamed response. -/
theorem handleStreamingAux_spec (oracle : Nat → Outcome) (now : ℤ) :
    ∀ (l : List (Nat × PipelineProvider)) (mgr : CircuitBreakerManager) (acc : List Nat),
      (∀ i ∈ acc, deliverable (oracle i) = false) →
      (∀ i ∈ acc, i ∈ (handleStreamingAux oracle now l mgr acc).contacted) ∧
      (∀ i ∈ (handleStreamingAux oracle now l mgr acc).contacted,
        deliverable (oracle i) = true →
        (handleStreamingAux oracle now l mgr acc).contacted.getLast? = some i ∧
        (handleStreamingAux oracle now l mgr acc).source = some i) ∧
      (∀ i, (handleStreamingAux oracle now l mgr acc).source = some i →
        i ∈ (handleStreamingAux oracle now l mgr acc).contacted ∧
        ∃ st bd hs, oracle i = .http st bd hs ∧
          (handleStreamingAux oracle now l mgr acc).resp = ⟨st, bd, filter_headers hs⟩) := by
  intro l
  induction l with
  | nil =>
    intro mgr acc h1
    simp only [handleStreamingAux]
    refine ⟨fun i hi => hi, fun i hi htrue => ?_, fun i hsrc => ?_⟩
    · have hfalse := h1 i hi
      rw [htrue] at hfalse
      cases hfalse
    · cases hsrc
  | cons hd tl ih =>
    intro mgr acc h1
    obtain ⟨j, p⟩ := hd
    cases hop : ((mgr.get p.name).1.is_open now).1 with
    | true =>
      simp only [handleStreamingAux, hop]
      exact ih _ acc h1
    | false =>
      cases horacle : oracle j with
      | http st bd hs =>
        cases hfail : is_failure_response st with
        | false =>
          simp only [handleStreamingAux, hop, horacle, hfail]
          refine ⟨fun i hi => List.mem_append.mpr (.inl hi),
            fun i hi htrue => ?_, fun i hsrc => ?_⟩
          · rcases List.mem_append.mp hi with hmem | hmem
            · have hfalse := h1 i hmem
              rw [htrue] at hfalse
              cases hfalse
            · cases List.mem_singleton.mp hmem
              exact ⟨List.getLast?_concat acc, rfl⟩
          · cases Option.some.inj hsrc
            exact ⟨List.mem_append.mpr (.inr (List.mem_singleton.mpr rfl)),
              st, bd, hs, horacle, rfl⟩
        | true =>
          simp only [handleStreamingAux, hop, horacle, hfail]
          have hh1 : ∀ i ∈ acc ++ [j], deliverable (oracle i) = false := by
            intro i hi
            rcases List.mem_append.mp hi with hmem | hmem
            · exact h1 i hmem
            · cases List.mem_singleton.mp hmem
              simp [deliverable, horacle, hfail]
          obtain ⟨ihm, ih2, ih3⟩ := ih _ (acc ++ [j]) hh1
          exact ⟨fun i hi => ihm i (List.mem_append.mpr (.inl hi)), ih2, ih3⟩
      | transportError msg =>
        simp only [handleStreamingAux, hop, horacle]
        have hh1 : ∀ i ∈ acc ++ [j], deliverable (oracle i) = false := by
          intro i hi
          rcases List.mem_append.mp hi with hmem | hmem
          · exact h1 i hmem
          · cases List.mem_singleton.mp hmem
            simp [deliverable, horacle]
        obtain ⟨ihm, ih2, ih3⟩ := ih _ (acc ++ [j]) hh1
        exact ⟨fun i hi => ihm i (List.mem_append.mpr (.inl hi)), ih2, ih3⟩

/-- C4: in each pipeline, a contacted provider whose outcome is an HTTP
status below 500 (`deliverable`, which includes every 4xx) is the last
provider contacted in the request — no subsequent provider is contacted —
and is the one whose response is returned; and whenever a provider's body
is delivered (`source = some i`), that provider is the unique contacted
source and the client response carries exactly its status, body and
filtered headers, so at most one upstream body reaches the client. -/
theorem atMostOneUpstreamBody (providers : List PipelineProvider)
    (mgr : CircuitBreakerManager) (oracle : Nat → Outcome) (now : ℤ) :
    ((∀ i ∈ (handle_normal_request providers mgr oracle now).contacted,
        deliverable (oracle i) = true →
        (handle_normal_request providers mgr oracle now).contacted.getLast? = some i ∧
        (handle_normal_request providers mgr oracle now).source = some i) ∧
      (∀ i, (handle_normal_request providers mgr oracle now).source = some i →
        i ∈ (handle_normal_request providers mgr oracle now).contacted ∧
        ∃ st bd hs, oracle i = .http st bd hs ∧
          (handle_normal_request providers mgr oracle now).resp
            = ⟨st, bd, filter_headers hs⟩)) ∧
    ((∀ i ∈ (handle_streaming_request providers mgr oracle now).contacted,
        deliverable (oracle i) = true →
        (handle_streaming_request providers mgr oracle now).contacted.getLast? = some i ∧
        (handle_streaming_request providers mgr oracle now).source = some i) ∧
      (∀ i, (handle_streaming_request providers mgr oracle now).source = some i →
        i ∈ (handle_streaming_request providers mgr oracle now).contacted ∧
        ∃ st bd hs, oracle i = .http st bd hs ∧
          (handle_streaming_request providers mgr oracle now).resp
            = ⟨st, bd, filter_headers hs⟩)) := by
  have hn := handleNormalAux_spec oracle now providers.enum mgr none none []
    (by intro i hi; cases hi) (by intro i st bd hs h; cases h)
  have hs := handleStreamingAux_spec oracle now providers.enum mgr []
    (by intro i hi; cases hi)
  exact ⟨⟨hn.2.1, hn.2.2⟩, ⟨hs.2.1, hs.2.2⟩⟩

/-- C4 witness: in the 5xx-failover scenario (provider 0 answers 500,
provider 1 answers 200) the deliverable attempt at position 1 is the last
contact of the buffered pipeline and the delivered source. -/
theorem atMostOneUpstreamBody_witness :
    (handle_normal_request [samplePrimary, sampleBackup] sampleManager
      oracleFailover 0).contacted.getLast? = some 1 ∧
    (handle_normal_request [samplePrimary, sampleBackup] sampleManager
      oracleFailover 0).source = some 1 :=
  (atMostOneUpstreamBody [samplePrimary, sampleBackup] sampleManager
    oracleFailover 0).1.1 1 (by decide) (by decide)

end TransparentGateway
